import Mathlib

/-!
Shallow embedding of `src/venv/main.py`, a manual-style functional test
harness for a pet-store user-management REST API.

Modelling conventions:

* An HTTP response (`requests.Response`) is a record carrying the status
  code, the raw body (`content`; Python truthiness of `response.content`
  is non-emptiness), and the outcome of `response.json()` (`parsedBody`:
  `Except` so that a malformed non-empty body raises, as in Python).
  `response.text` is the decoded body; decoding is modelled as the
  identity on the raw body string.
* The recorder state `self.test_results` is passed explicitly as a
  `List TestResult`; methods that may raise (a `.json()` parse failure
  propagates and aborts the run, per the source) return
  `Except String (List TestResult)`.
* `datetime.datetime.now().isoformat()` is an external clock value,
  passed in as a `now : String` parameter.
* The Python float arithmetic in `generate_report` is modelled over `Rat`
  (exact rational arithmetic), with the zero-total guard kept verbatim.
* Network calls themselves are out of scope: each scenario method takes
  the responses the service returned, in the order the source issues the
  requests, as oracle inputs.
-/

/-- A structured (JSON-like) value, as produced by `response.json()`.
`Json.obj []` is the empty dict `{}` substituted for empty bodies. -/
inductive Json where
  | null : Json
  | bool (b : Bool) : Json
  | num (n : Int) : Json
  | str (s : String) : Json
  | arr (elems : List Json) : Json
  | obj (fields : List (String × Json)) : Json

/-- Python `j == "some string"`: true exactly when `j` is that string. -/
def Json.isStr (j : Json) (s : String) : Bool :=
  match j with
  | .str t => t == s
  | _ => false

/-- Python `j[key]` on a structured value: field lookup on a dict, failure
(`KeyError`, or `TypeError` on a non-dict) otherwise, modelled as `none`. -/
def Json.lookup (j : Json) (key : String) : Option Json :=
  match j with
  | .obj fields => fields.lookup key
  | _ => none

/-- An HTTP response as the scenarios observe it. -/
structure Response where
  status_code : Int
  content : String
  parsedBody : Except String Json

/-- Model of `response.text`: the decoded body (decoding modelled as identity). -/
def Response.text (r : Response) : String := r.content

/-- The `expected_status` argument of `add_test_result`: the Python code
passes `None` (the default), an integer, or a sentinel string such as
`"any error"` / `"error expected"`. -/
inductive Expected where
  | none : Expected
  | code (n : Int) : Expected
  | sentinel (s : String) : Expected

/-- One recorded outcome: the dict built by `add_test_result`. -/
structure TestResult where
  test_name : String
  status : String
  timestamp : String
  response_status : Int
  expected_status : Expected
  response_body : Json
  notes : String

/-- Model of `response.json() if response.content else` the empty dict
(main.py line 73):
parse the body when it is non-empty, substitute the empty dict otherwise.
A parse failure on a non-empty body propagates. -/
def bodyOrEmpty (r : Response) : Except String Json :=
  if r.content = "" then Except.ok (Json.obj []) else r.parsedBody

/-- Model of `UserAPITestBase.add_test_result` (main.py lines 64-76): build the
outcome dict and append it to `self.test_results`. -/
def add_test_result (test_results : List TestResult) (test_name : String)
    (status : String) (response : Response) (expected_status : Expected)
    (notes : String) (now : String) : Except String (List TestResult) :=
  match bodyOrEmpty response with
  | .error e => .error e
  | .ok body =>
      .ok (test_results ++
        [{ test_name := test_name
           status := status
           timestamp := now
           response_status := response.status_code
           expected_status := expected_status
           response_body := body
           notes := notes }])

/-- The report dict built by `generate_report` (file write and console
printing are I/O side effects outside the data model). -/
structure Report where
  report_date : String
  total_tests : Nat
  passed_tests : Nat
  failed_tests : Nat
  success_rate : Rat
  test_results : List TestResult

/-- Model of `UserAPITestBase.generate_report` (main.py lines 78-115): aggregate
the recorded outcomes into the report dict. -/
def generate_report (test_results : List TestResult) (now : String) : Report :=
  let total_tests := test_results.length
  let passed_tests := test_results.countP (fun result => result.status == "PASSED")
  let failed_tests := total_tests - passed_tests
  { report_date := now
    total_tests := total_tests
    passed_tests := passed_tests
    failed_tests := failed_tests
    success_rate :=
      if total_tests > 0 then (passed_tests : Rat) / (total_tests : Rat) * 100 else 0
    test_results := test_results }

/-- Python `str.lower()` on one character, for the characters this
program feeds it: ASCII letters and the Cyrillic range А..Я (and Ё). -/
def pyLowerChar (c : Char) : Char :=
  if 'A' ≤ c ∧ c ≤ 'Z' then Char.ofNat (c.toNat + 32)
  else if 'А' ≤ c ∧ c ≤ 'Я' then Char.ofNat (c.toNat + 32)
  else if c = 'Ё' then 'ё'
  else c

/-- Python `s.lower()` (restricted as in `pyLowerChar`). -/
def pyLower (s : String) : String :=
  String.mk (s.data.map pyLowerChar)

/-- Python `needle in haystack` on strings: substring containment. -/
def containsSubstr (haystack needle : String) : Bool :=
  (List.range (haystack.data.length + 1)).any
    (fun i => needle.data.isPrefixOf (haystack.data.drop i))

/-- Model of `TestUserLoginLogout.test_login_logout_success` (main.py lines
150-175). The three responses are what the service returned to the
create, login and logout requests, in that order; `self.test_results`
is `test_results`. The generated `user_data` only shapes the outgoing
requests, which are outside the model. -/
def test_login_logout_success (test_results : List TestResult) (now : String)
    (create_response login_response logout_response : Response) :
    Except String (List TestResult) :=
  if create_response.status_code ≠ 200 then
    add_test_result test_results "test_login_logout_success" "FAILED" create_response
      (Expected.code 200) "Не удалось создать пользователя для теста входа" now
  else if (login_response.status_code == 200)
      && containsSubstr (pyLower login_response.text) "logged in" then
    match add_test_result test_results "test_login_success" "PASSED" login_response
        (Expected.code 200) "" now with
    | .error e => .error e
    | .ok s1 =>
        if (logout_response.status_code == 200)
            && containsSubstr (pyLower logout_response.text) "ok" then
          add_test_result s1 "test_logout_success" "PASSED" logout_response
            (Expected.code 200) "" now
        else
          add_test_result s1 "test_logout_success" "FAILED" logout_response
            (Expected.code 200) "Не удалось выйти пользователя" now
  else
    add_test_result test_results "test_login_success" "FAILED" login_response
      (Expected.code 200) "Не удалось войти пользователя" now

/-- Model of `TestUserUpdateDelete.test_update_user_success` (main.py lines
191-219). Responses to the create, update and get requests in order. -/
def test_update_user_success (test_results : List TestResult) (now : String)
    (create_response update_response get_response : Response) :
    Except String (List TestResult) :=
  if create_response.status_code ≠ 200 then
    add_test_result test_results "test_update_user_success" "FAILED" create_response
      (Expected.code 200) "Не удалось создать пользователя для теста обновления" now
  else if update_response.status_code == 200 then
    match add_test_result test_results "test_update_user_success" "PASSED" update_response
        (Expected.code 200) "" now with
    | .error e => .error e
    | .ok s1 =>
        if get_response.status_code == 200 then
          match get_response.parsedBody with
          | .error e => .error e
          | .ok j =>
              match Json.lookup j "firstName" with
              | Option.none => .error "KeyError: firstName"
              | Option.some v =>
                  if Json.isStr v "UpdatedFirstName" then
                    add_test_result s1 "test_verify_update" "PASSED" get_response
                      (Expected.code 200) "" now
                  else
                    add_test_result s1 "test_verify_update" "FAILED" get_response
                      (Expected.code 200) "Данные пользователя не обновились" now
        else
          add_test_result s1 "test_verify_update" "FAILED" get_response
            (Expected.code 200) "Данные пользователя не обновились" now
  else
    add_test_result test_results "test_update_user_success" "FAILED" update_response
      (Expected.code 200) "Не удалось обновить пользователя" now

/-- Model of `TestUserUpdateDelete.test_delete_user_success` (main.py lines
221-244). Responses to the create, delete and get requests in order. -/
def test_delete_user_success (test_results : List TestResult) (now : String)
    (create_response delete_response get_response : Response) :
    Except String (List TestResult) :=
  if create_response.status_code ≠ 200 then
    add_test_result test_results "test_delete_user_success" "FAILED" create_response
      (Expected.code 200) "Не удалось создать пользователя для теста удаления" now
  else if delete_response.status_code == 200 then
    match add_test_result test_results "test_delete_user_success" "PASSED" delete_response
        (Expected.code 200) "" now with
    | .error e => .error e
    | .ok s1 =>
        if get_response.status_code == 404 then
          add_test_result s1 "test_verify_deletion" "PASSED" get_response
            (Expected.code 404) "" now
        else
          add_test_result s1 "test_verify_deletion" "FAILED" get_response
            (Expected.code 404) "Пользователь не был удален" now
  else
    add_test_result test_results "test_delete_user_success" "FAILED" delete_response
      (Expected.code 200) "Не удалось удалить пользователя" now

/-- The arguments of one `add_test_result` call. -/
structure AddInput where
  test_name : String
  status : String
  response : Response
  expected_status : Expected
  notes : String
  now : String

/-- Run `add_test_result` once per input, in order, threading the
recorder state. -/
def addAll (inputs : List AddInput) (test_results : List TestResult) :
    Except String (List TestResult) :=
  match inputs with
  | [] => .ok test_results
  | i :: rest =>
      match add_test_result test_results i.test_name i.status i.response
          i.expected_status i.notes i.now with
      | .error e => .error e
      | .ok s1 => addAll rest s1

/-- The outcome one successful `add_test_result` call appends (the
default body is never used when the body parse succeeds). -/
def outcomeOf (i : AddInput) : TestResult :=
  { test_name := i.test_name
    status := i.status
    timestamp := i.now
    response_status := i.response.status_code
    expected_status := i.expected_status
    response_body := (bodyOrEmpty i.response).toOption.getD (Json.obj [])
    notes := i.notes }

/-- The steps list of `test_single_user_flow` (main.py lines 286-292):
(step name, the response its action received, expected status). -/
def single_flow_steps (create_r login_r get_r logout_r delete_r : Response) :
    List (String × Response × Int) :=
  [("Создание пользователя", create_r, 200),
   ("Вход пользователя", login_r, 200),
   ("Получение информации", get_r, 200),
   ("Выход пользователя", logout_r, 200),
   ("Удаление пользователя", delete_r, 200)]

/-- The recorded step name of main.py line 298: full_flow_ followed by
the step name lowercased with spaces replaced by underscores. -/
def flow_test_name (step_name : String) : String :=
  "full_flow_" ++ String.mk ((pyLower step_name).data.map
    (fun c => if c = ' ' then '_' else c))

/-- Model of `test_single_user_flow` (main.py lines 279-301), up to the final
`generate_report` call: run every step unconditionally, judge it
`PASSED` exactly when its status code equals the expected one, and
record it under `flow_test_name step_name`. -/
def test_single_user_flow (now : String)
    (create_r login_r get_r logout_r delete_r : Response) :
    Except String (List TestResult) :=
  addAll
    ((single_flow_steps create_r login_r get_r logout_r delete_r).map
      (fun step =>
        { test_name := flow_test_name step.1
          status := if step.2.1.status_code == step.2.2 then "PASSED" else "FAILED"
          response := step.2.1
          expected_status := Expected.code step.2.2
          notes := ""
          now := now }))
    []

/-- Python `random.randint(a, b)`: an integer drawn from `[a, b]`
inclusive, modelled as a function of an abstract seed. For `a ≤ b` the
result always lies in `[a, b]`. -/
def randint (seed a b : Int) : Int :=
  a + seed % (b - a + 1)

/-- The `Faker` instance `self.fake`: an abstract source of fake identity
strings. `password n` models `fake.password(length=n)`, a password of
exactly `n` characters. -/
structure FakerM where
  user_name : String
  first_name : String
  last_name : String
  email : String
  password : Nat → String
  phone_number : String

/-- The dict returned by `generate_user_data` (main.py lines 19-30). -/
structure UserData where
  id : Int
  username : String
  firstName : String
  lastName : String
  email : String
  password : String
  phone : String
  userStatus : Int

/-- Model of `UserAPITestBase.generate_user_data` (main.py lines 19-30), with the
two `random.randint` draws fed by explicit seeds. -/
def generate_user_data (fake : FakerM) (seedId seedStatus : Int) : UserData :=
  { id := randint seedId 1000 9999
    username := fake.user_name
    firstName := fake.first_name
    lastName := fake.last_name
    email := fake.email
    password := fake.password 12
    phone := fake.phone_number
    userStatus := randint seedStatus 0 1 }

/-! ## Helper lemmas -/

theorem add_test_result_eq (s : List TestResult) (n st : String) (r : Response)
    (e : Expected) (nt now : String) (b : Json) (hb : bodyOrEmpty r = Except.ok b) :
    add_test_result s n st r e nt now
      = Except.ok (s ++ [{ test_name := n, status := st, timestamp := now,
                           response_status := r.status_code, expected_status := e,
                           response_body := b, notes := nt }]) := by
  simp [add_test_result, hb]

theorem outcomeOf_body (i : AddInput) (b : Json)
    (hb : bodyOrEmpty i.response = Except.ok b) :
    (outcomeOf i).response_body = b := by
  simp [outcomeOf, hb, Except.toOption]

theorem addAll_ok (inputs : List AddInput) (s : List TestResult)
    (h : ∀ i ∈ inputs, (bodyOrEmpty i.response).isOk = true) :
    addAll inputs s = Except.ok (s ++ inputs.map outcomeOf) := by
  induction inputs generalizing s with
  | nil => simp [addAll]
  | cons i rest ih =>
      have hi : (bodyOrEmpty i.response).isOk = true := h i (by simp)
      cases hcase : bodyOrEmpty i.response with
      | error e => rw [hcase] at hi; simp [Except.isOk, Except.toBool] at hi
      | ok b =>
          have hstep : add_test_result s i.test_name i.status i.response
              i.expected_status i.notes i.now = Except.ok (s ++ [outcomeOf i]) := by
            simp [add_test_result, hcase, outcomeOf, Except.toOption]
          have hrest := ih (s ++ [outcomeOf i]) (fun j hj => h j (by simp [hj]))
          simp [addAll, hstep, hrest]

theorem countP_not_passed (rs : List TestResult) :
    rs.countP (fun result => !(result.status == "PASSED"))
      = rs.length - rs.countP (fun result => result.status == "PASSED") := by
  induction rs with
  | nil => rfl
  | cons a t ih =>
      have hle := List.countP_le_length (fun result => result.status == "PASSED") (l := t)
      cases hst : (a.status == "PASSED") with
      | true => simp [List.countP_cons, hst, ih]
      | false =>
          simp [List.countP_cons, hst, ih]
          omega

theorem randint_mem (seed a b : Int) (h : a ≤ b) :
    a ≤ randint seed a b ∧ randint seed a b ≤ b := by
  unfold randint
  have hne : b - a + 1 ≠ 0 := by omega
  have h1 := Int.emod_nonneg seed hne
  have h2 := Int.emod_lt_of_pos seed (show (0 : Int) < b - a + 1 by omega)
  omega

theorem string_length_ne_empty (s : String) (n : Nat) (hn : 0 < n)
    (h : s.length = n) : s ≠ "" := by
  intro hs
  rw [hs] at h
  simp [String.length] at h
  omega

/-! ## Claims -/

/-- C1: for every sequence of recorded outcomes, the report produced by
`generate_report` satisfies `passed_tests + failed_tests = total_tests`,
where `total_tests` is the length of the sequence. -/
theorem report_counts_invariant (rs : List TestResult) (now : String) :
    (generate_report rs now).passed_tests + (generate_report rs now).failed_tests
        = (generate_report rs now).total_tests ∧
    (generate_report rs now).total_tests = rs.length := by
  refine ⟨?_, rfl⟩
  have h := List.countP_le_length (fun result => result.status == "PASSED") (l := rs)
  simp [generate_report]
  omega

/-- C2: for the empty outcome sequence (`total_tests = 0`),
`generate_report` stores `success_rate = 0` — the guard takes the `else 0`
branch, so no quotient by the zero total is ever formed. -/
theorem report_empty_success_rate (now : String) :
    (generate_report [] now).success_rate = 0 ∧
    (generate_report [] now).total_tests = 0 :=
  ⟨rfl, rfl⟩

/-- C3: whenever `total_tests > 0`, the stored `success_rate` equals
`100 * passed_tests / total_tests` exactly (the two-decimal rounding is
display-only; the stored value is the unrounded quotient). -/
theorem report_success_rate_formula (rs : List TestResult) (now : String)
    (h : 0 < rs.length) :
    (generate_report rs now).success_rate
      = 100 * ((generate_report rs now).passed_tests : Rat)
          / ((generate_report rs now).total_tests : Rat) := by
  simp [generate_report, h]
  ring

/-- A minimal recorded outcome with the given status string. -/
def exOutcome (st : String) : TestResult :=
  { test_name := "t", status := st, timestamp := "", response_status := 200,
    expected_status := Expected.code 200, response_body := Json.obj [], notes := "" }

/-- The worked example from the spec: outcomes `[PASSED, PASSED, FAILED]`. -/
def exOutcomes : List TestResult :=
  [exOutcome "PASSED", exOutcome "PASSED", exOutcome "FAILED"]

/-- C3 witness: on `[PASSED, PASSED, FAILED]` the report has total 3,
passed 2, failed 1, and stored success rate exactly `200/3`. -/
theorem report_success_rate_formula_witness :
    0 < exOutcomes.length ∧
    (generate_report exOutcomes "d").success_rate
        = 100 * ((generate_report exOutcomes "d").passed_tests : Rat)
            / ((generate_report exOutcomes "d").total_tests : Rat) ∧
    (generate_report exOutcomes "d").total_tests = 3 ∧
    (generate_report exOutcomes "d").passed_tests = 2 ∧
    (generate_report exOutcomes "d").failed_tests = 1 ∧
    (generate_report exOutcomes "d").success_rate = 200 / 3 := by
  have happ := report_success_rate_formula exOutcomes "d" (by decide)
  refine ⟨by decide, happ, by decide, by decide, by decide, ?_⟩
  rw [happ]
  have h2 : (generate_report exOutcomes "d").passed_tests = 2 := by decide
  have h3 : (generate_report exOutcomes "d").total_tests = 3 := by decide
  rw [h2, h3]
  norm_num

/-- C9: `failed_tests` is `total - passed`, so every outcome whose status
is not exactly the string `"PASSED"` — not only `"FAILED"` — is counted
as failed. -/
theorem report_failed_counts_non_passed (rs : List TestResult) (now : String) :
    (generate_report rs now).failed_tests
      = rs.countP (fun result => !(result.status == "PASSED")) := by
  simp [generate_report, countP_not_passed]

/-- C6: `add_test_result` parses the body exactly when the body is
non-empty; on an empty body it substitutes the empty dict without
touching the (possibly unparseable) body, so no parse failure can
occur. -/
theorem add_test_result_body_handling (s : List TestResult)
    (n st nt now : String) (r : Response) (e : Expected) :
    (r.content = "" →
      add_test_result s n st r e nt now
        = Except.ok (s ++ [{ test_name := n, status := st, timestamp := now,
                             response_status := r.status_code, expected_status := e,
                             response_body := Json.obj [], notes := nt }])) ∧
    (∀ b, r.parsedBody = Except.ok b → r.content ≠ "" →
      add_test_result s n st r e nt now
        = Except.ok (s ++ [{ test_name := n, status := st, timestamp := now,
                             response_status := r.status_code, expected_status := e,
                             response_body := b, notes := nt }])) := by
  constructor
  · intro hc
    simp [add_test_result, bodyOrEmpty, hc]
  · intro b hb hc
    simp [add_test_result, bodyOrEmpty, hb, hc]

/-- A 200 response with an empty body whose parse attempt would fail:
recording it succeeds anyway, with the empty dict as the body. -/
def emptyBodyResponse : Response :=
  { status_code := 200, content := "", parsedBody := Except.error "no body" }

/-- C6 witness: recording `emptyBodyResponse` substitutes `{}` and does
not raise even though its body cannot be parsed. -/
theorem add_test_result_body_handling_witness :
    add_test_result [] "t" "PASSED" emptyBodyResponse (Expected.code 200) "" "d"
      = Except.ok [{ test_name := "t", status := "PASSED", timestamp := "d",
                     response_status := 200, expected_status := Expected.code 200,
                     response_body := Json.obj [], notes := "" }] :=
  (add_test_result_body_handling [] "t" "PASSED" "" "d" emptyBodyResponse
    (Expected.code 200)).1 rfl

/-- C10: a successful `add_test_result` appends exactly one outcome,
carrying the status code of the response, to the unchanged previous sequence;
`generate_report` embeds the sequence held by the recorder, unchanged, as
the `test_results` field of the report. -/
theorem add_frame_and_report_embeds (s rs : List TestResult) (n st nt now : String)
    (r : Response) (e : Expected) (b : Json) (hb : bodyOrEmpty r = Except.ok b) :
    (∃ o, add_test_result s n st r e nt now = Except.ok (s ++ [o])
        ∧ o.response_status = r.status_code) ∧
    (generate_report rs now).test_results = rs :=
  ⟨⟨_, add_test_result_eq s n st r e nt now b hb, rfl⟩, rfl⟩

/-- C10 witness at a concrete recorder state and response. -/
theorem add_frame_and_report_embeds_witness :
    (∃ o, add_test_result [exOutcome "PASSED"] "t2" "FAILED" emptyBodyResponse
        (Expected.code 200) "" "d" = Except.ok ([exOutcome "PASSED"] ++ [o])
        ∧ o.response_status = emptyBodyResponse.status_code) ∧
    (generate_report exOutcomes "d").test_results = exOutcomes :=
  add_frame_and_report_embeds [exOutcome "PASSED"] exOutcomes "t2" "FAILED" "" "d"
    emptyBodyResponse (Expected.code 200) (Json.obj []) rfl

/-- C4: recording `N` outcomes (one `add_test_result` call per input)
and then generating a report yields a `test_results` sequence of length
`N` that lists the outcomes in exactly the order they were recorded:
the sequence is the image of the input list, position by position. -/
theorem record_n_then_report_ordered (inputs : List AddInput) (now : String)
    (h : ∀ i ∈ inputs, (bodyOrEmpty i.response).isOk = true) :
    ∃ s, addAll inputs [] = Except.ok s ∧
      s = inputs.map outcomeOf ∧
      (generate_report s now).test_results = inputs.map outcomeOf ∧
      (generate_report s now).test_results.length = inputs.length := by
  refine ⟨inputs.map outcomeOf, ?_, rfl, rfl, by simp [generate_report]⟩
  simpa using addAll_ok inputs [] h

/-- A 404 response with a parseable non-empty body. -/
def notFoundResponse : Response :=
  { status_code := 404, content := "x", parsedBody := Except.ok (Json.obj []) }

/-- Two concrete recorder calls for the C4 witness. -/
def wInputs : List AddInput :=
  [{ test_name := "a", status := "PASSED", response := emptyBodyResponse,
     expected_status := Expected.code 200, notes := "", now := "d" },
   { test_name := "b", status := "FAILED", response := notFoundResponse,
     expected_status := Expected.code 200, notes := "n", now := "d" }]

/-- C4 witness: two recorded outcomes give a two-element ordered report. -/
theorem record_n_then_report_ordered_witness :
    ∃ s, addAll wInputs [] = Except.ok s ∧
      s = wInputs.map outcomeOf ∧
      (generate_report s "d").test_results = wInputs.map outcomeOf ∧
      (generate_report s "d").test_results.length = wInputs.length :=
  record_n_then_report_ordered wInputs "d" (by decide)

/-- C5: every record returned by `generate_user_data` has an id in
`[1000, 9999]`, a `userStatus` of 0 or 1, a password of exactly 12
characters, and non-empty string fields — given a `Faker` source that
meets its documented contract (non-empty identity strings, passwords of
the requested length). -/
theorem generate_user_data_valid (fake : FakerM) (seedId seedStatus : Int)
    (hu : fake.user_name ≠ "") (hf : fake.first_name ≠ "")
    (hl : fake.last_name ≠ "") (he : fake.email ≠ "")
    (hp : fake.phone_number ≠ "")
    (hpw : ∀ n, (fake.password n).length = n) :
    1000 ≤ (generate_user_data fake seedId seedStatus).id ∧
    (generate_user_data fake seedId seedStatus).id ≤ 9999 ∧
    ((generate_user_data fake seedId seedStatus).userStatus = 0 ∨
      (generate_user_data fake seedId seedStatus).userStatus = 1) ∧
    (generate_user_data fake seedId seedStatus).password.length = 12 ∧
    (generate_user_data fake seedId seedStatus).password ≠ "" ∧
    (generate_user_data fake seedId seedStatus).username ≠ "" ∧
    (generate_user_data fake seedId seedStatus).firstName ≠ "" ∧
    (generate_user_data fake seedId seedStatus).lastName ≠ "" ∧
    (generate_user_data fake seedId seedStatus).email ≠ "" ∧
    (generate_user_data fake seedId seedStatus).phone ≠ "" := by
  have hid := randint_mem seedId 1000 9999 (by omega)
  have hst := randint_mem seedStatus 0 1 (by omega)
  have hpw12 := hpw 12
  simp only [generate_user_data]
  exact ⟨hid.1, hid.2, by omega, hpw12,
    string_length_ne_empty _ 12 (by omega) hpw12, hu, hf, hl, he, hp⟩

/-- A concrete Faker source satisfying the documented contract. -/
def sampleFaker : FakerM :=
  { user_name := "jdoe"
    first_name := "John"
    last_name := "Doe"
    email := "jdoe@example.com"
    password := fun n => String.mk (List.replicate n 'x')
    phone_number := "555-0100" }

/-- C5 witness at a concrete Faker source and seeds. -/
theorem generate_user_data_valid_witness :
    1000 ≤ (generate_user_data sampleFaker 12345 7).id ∧
    (generate_user_data sampleFaker 12345 7).id ≤ 9999 ∧
    ((generate_user_data sampleFaker 12345 7).userStatus = 0 ∨
      (generate_user_data sampleFaker 12345 7).userStatus = 1) ∧
    (generate_user_data sampleFaker 12345 7).password.length = 12 ∧
    (generate_user_data sampleFaker 12345 7).password ≠ "" ∧
    (generate_user_data sampleFaker 12345 7).username ≠ "" ∧
    (generate_user_data sampleFaker 12345 7).firstName ≠ "" ∧
    (generate_user_data sampleFaker 12345 7).lastName ≠ "" ∧
    (generate_user_data sampleFaker 12345 7).email ≠ "" ∧
    (generate_user_data sampleFaker 12345 7).phone ≠ "" :=
  generate_user_data_valid sampleFaker 12345 7 (by decide) (by decide) (by decide)
    (by decide) (by decide) (fun n => by simp [sampleFaker, String.length])

/-- C7: in each of the three scenarios with a create-user prerequisite,
a non-200 create response makes the scenario record exactly one FAILED
outcome carrying its could-not-create-prerequisite note and return: the
dependent steps are skipped, so the result does not depend on the later
responses at all. -/
theorem create_failure_short_circuits (s : List TestResult) (now : String)
    (cr lr wr ur gr dr hr : Response) (b : Json)
    (hc : cr.status_code ≠ 200) (hb : bodyOrEmpty cr = Except.ok b) :
    test_login_logout_success s now cr lr wr
      = Except.ok (s ++ [{ test_name := "test_login_logout_success", status := "FAILED",
                           timestamp := now, response_status := cr.status_code,
                           expected_status := Expected.code 200, response_body := b,
                           notes := "Не удалось создать пользователя для теста входа" }]) ∧
    test_update_user_success s now cr ur gr
      = Except.ok (s ++ [{ test_name := "test_update_user_success", status := "FAILED",
                           timestamp := now, response_status := cr.status_code,
                           expected_status := Expected.code 200, response_body := b,
                           notes := "Не удалось создать пользователя для теста обновления" }]) ∧
    test_delete_user_success s now cr dr hr
      = Except.ok (s ++ [{ test_name := "test_delete_user_success", status := "FAILED",
                           timestamp := now, response_status := cr.status_code,
                           expected_status := Expected.code 200, response_body := b,
                           notes := "Не удалось создать пользователя для теста удаления" }]) := by
  refine ⟨?_, ?_, ?_⟩ <;>
    simp [test_login_logout_success, test_update_user_success,
          test_delete_user_success, hc, add_test_result, hb]

/-- A failed create attempt: status 500, empty body. -/
def errorResponse : Response :=
  { status_code := 500, content := "", parsedBody := Except.error "boom" }

/-- C7 witness: with a 500 create response (and arbitrary later
responses) each scenario records exactly its single FAILED outcome. -/
theorem create_failure_short_circuits_witness :
    test_login_logout_success [] "d" errorResponse notFoundResponse emptyBodyResponse
      = Except.ok [{ test_name := "test_login_logout_success", status := "FAILED",
                     timestamp := "d", response_status := errorResponse.status_code,
                     expected_status := Expected.code 200, response_body := Json.obj [],
                     notes := "Не удалось создать пользователя для теста входа" }] ∧
    test_update_user_success [] "d" errorResponse notFoundResponse emptyBodyResponse
      = Except.ok [{ test_name := "test_update_user_success", status := "FAILED",
                     timestamp := "d", response_status := errorResponse.status_code,
                     expected_status := Expected.code 200, response_body := Json.obj [],
                     notes := "Не удалось создать пользователя для теста обновления" }] ∧
    test_delete_user_success [] "d" errorResponse notFoundResponse emptyBodyResponse
      = Except.ok [{ test_name := "test_delete_user_success", status := "FAILED",
                     timestamp := "d", response_status := errorResponse.status_code,
                     expected_status := Expected.code 200, response_body := Json.obj [],
                     notes := "Не удалось создать пользователя для теста удаления" }] :=
  create_failure_short_circuits [] "d" errorResponse notFoundResponse emptyBodyResponse
    notFoundResponse emptyBodyResponse notFoundResponse emptyBodyResponse (Json.obj [])
    (by decide) rfl

/-- C8: `test_single_user_flow` records all five steps — create, login,
get, logout, delete — unconditionally and in that order, each judged
`PASSED` exactly when its status code equals 200, regardless of whether
any earlier step failed. -/
theorem single_user_flow_unconditional (now : String)
    (r1 r2 r3 r4 r5 : Response)
    (h1 : (bodyOrEmpty r1).isOk = true) (h2 : (bodyOrEmpty r2).isOk = true)
    (h3 : (bodyOrEmpty r3).isOk = true) (h4 : (bodyOrEmpty r4).isOk = true)
    (h5 : (bodyOrEmpty r5).isOk = true) :
    test_single_user_flow now r1 r2 r3 r4 r5
      = Except.ok
          [{ test_name := "full_flow_создание_пользователя",
             status := if r1.status_code == 200 then "PASSED" else "FAILED",
             timestamp := now, response_status := r1.status_code,
             expected_status := Expected.code 200,
             response_body := (bodyOrEmpty r1).toOption.getD (Json.obj []), notes := "" },
           { test_name := "full_flow_вход_пользователя",
             status := if r2.status_code == 200 then "PASSED" else "FAILED",
             timestamp := now, response_status := r2.status_code,
             expected_status := Expected.code 200,
             response_body := (bodyOrEmpty r2).toOption.getD (Json.obj []), notes := "" },
           { test_name := "full_flow_получение_информации",
             status := if r3.status_code == 200 then "PASSED" else "FAILED",
             timestamp := now, response_status := r3.status_code,
             expected_status := Expected.code 200,
             response_body := (bodyOrEmpty r3).toOption.getD (Json.obj []), notes := "" },
           { test_name := "full_flow_выход_пользователя",
             status := if r4.status_code == 200 then "PASSED" else "FAILED",
             timestamp := now, response_status := r4.status_code,
             expected_status := Expected.code 200,
             response_body := (bodyOrEmpty r4).toOption.getD (Json.obj []), notes := "" },
           { test_name := "full_flow_удаление_пользователя",
             status := if r5.status_code == 200 then "PASSED" else "FAILED",
             timestamp := now, response_status := r5.status_code,
             expected_status := Expected.code 200,
             response_body := (bodyOrEmpty r5).toOption.getD (Json.obj []), notes := "" }] := by
  have e1 : flow_test_name "Создание пользователя" = "full_flow_создание_пользователя" := by
    decide
  have e2 : flow_test_name "Вход пользователя" = "full_flow_вход_пользователя" := by decide
  have e3 : flow_test_name "Получение информации" = "full_flow_получение_информации" := by
    decide
  have e4 : flow_test_name "Выход пользователя" = "full_flow_выход_пользователя" := by decide
  have e5 : flow_test_name "Удаление пользователя" = "full_flow_удаление_пользователя" := by
    decide
  rw [test_single_user_flow, addAll_ok]
  · simp [single_flow_steps, outcomeOf, e1, e2, e3, e4, e5]
  · intro i hi
    simp [single_flow_steps] at hi
    rcases hi with rfl | rfl | rfl | rfl | rfl
    · exact h1
    · exact h2
    · exact h3
    · exact h4
    · exact h5

/-- C8 witness: a failed login (and nothing else) still leaves all five
steps recorded, with only the login step FAILED. -/
theorem single_user_flow_unconditional_witness :
    test_single_user_flow "d" emptyBodyResponse errorResponse emptyBodyResponse
        emptyBodyResponse emptyBodyResponse
      = Except.ok
          [{ test_name := "full_flow_создание_пользователя",
             status := if emptyBodyResponse.status_code == 200 then "PASSED" else "FAILED",
             timestamp := "d", response_status := emptyBodyResponse.status_code,
             expected_status := Expected.code 200,
             response_body := (bodyOrEmpty emptyBodyResponse).toOption.getD (Json.obj []),
             notes := "" },
           { test_name := "full_flow_вход_пользователя",
             status := if errorResponse.status_code == 200 then "PASSED" else "FAILED",
             timestamp := "d", response_status := errorResponse.status_code,
             expected_status := Expected.code 200,
             response_body := (bodyOrEmpty errorResponse).toOption.getD (Json.obj []),
             notes := "" },
           { test_name := "full_flow_получение_информации",
             status := if emptyBodyResponse.status_code == 200 then "PASSED" else "FAILED",
             timestamp := "d", response_status := emptyBodyResponse.status_code,
             expected_status := Expected.code 200,
             response_body := (bodyOrEmpty emptyBodyResponse).toOption.getD (Json.obj []),
             notes := "" },
           { test_name := "full_flow_выход_пользователя",
             status := if emptyBodyResponse.status_code == 200 then "PASSED" else "FAILED",
             timestamp := "d", response_status := emptyBodyResponse.status_code,
             expected_status := Expected.code 200,
             response_body := (bodyOrEmpty emptyBodyResponse).toOption.getD (Json.obj []),
             notes := "" },
           { test_name := "full_flow_удаление_пользователя",
             status := if emptyBodyResponse.status_code == 200 then "PASSED" else "FAILED",
             timestamp := "d", response_status := emptyBodyResponse.status_code,
             expected_status := Expected.code 200,
             response_body := (bodyOrEmpty emptyBodyResponse).toOption.getD (Json.obj []),
             notes := "" }] :=
  single_user_flow_unconditional "d" emptyBodyResponse errorResponse emptyBodyResponse
    emptyBodyResponse emptyBodyResponse (by decide) (by decide) (by decide) (by decide)
    (by decide)
